import Mathlib

set_option autoImplicit false

/-!
# Mess-management backend: shallow embedding and verification

This file embeds the core of the mess-management backend (QR token codec,
access decision engine, mess-cut submission) as executable Lean definitions
translated from the Python source (`mess/models.py`, `mess/serializers.py`,
`mess/views.py`, `core/utils.py`), and proves or refutes the frozen claims
about it.

Conventions of the embedding:
* Python strings are `List Char` (`Str` below); `str.split('|')` is `pySplit`.
* Dates are days since an epoch (`Nat`); instants are minutes since the same
  epoch in UTC (`Nat`).  Django's `timezone.now()` (with `USE_TZ = True`)
  yields UTC, so `.date()` is `now / 1440` and `.time()` is `now % 1440`.
  The facility timezone is `Asia/Kolkata` (`TIME_ZONE` default), offset
  +330 minutes, no DST.
* HMAC-SHA256 is kept abstract: the codec is parametrised over a
  deterministic `digest : Str → Str → List Nat` (secret, message ↦ raw mac
  bytes); `hexdigest` is `hexOfBytes` applied to it.  All codec claims hold
  for every such digest function.
* The database is an explicit record of lists; Django queryset filters
  become `List.any` / `List.filter` over it.
-/

namespace MessSpec

/-- Python strings, as lists of characters. -/
abbrev Str := List Char

/-! ## Decimal digits and hex encoding -/

/-- The decimal digit character for `d` (used when rendering integers,
as Python's `f"{n}"` does). -/
def digitChar : Nat → Char
  | 0 => '0' | 1 => '1' | 2 => '2' | 3 => '3' | 4 => '4'
  | 5 => '5' | 6 => '6' | 7 => '7' | 8 => '8' | _ => '9'

/-- The lowercase hex digit character for `d`. -/
def hexDigit : Nat → Char
  | 0 => '0' | 1 => '1' | 2 => '2' | 3 => '3' | 4 => '4'
  | 5 => '5' | 6 => '6' | 7 => '7' | 8 => '8' | 9 => '9'
  | 10 => 'a' | 11 => 'b' | 12 => 'c' | 13 => 'd' | 14 => 'e' | _ => 'f'

/-- Lowercase hex rendering of one byte (two hex digits), as in Python's
`bytes.hex()`. -/
def byteToHex (b : Nat) : Str := [hexDigit (b / 16 % 16), hexDigit (b % 16)]

/-- Lowercase hex rendering of a byte string, as in `hashlib`'s
`hexdigest()` and `secrets.token_hex`. -/
def hexOfBytes (bs : List Nat) : Str := (bs.map byteToHex).flatten

/-- Decimal rendering of a natural number, as Python's `f"{n}"`. -/
def natToChars (n : Nat) : Str :=
  if n < 10 then [digitChar n]
  else natToChars (n / 10) ++ [digitChar (n % 10)]
  termination_by n
  decreasing_by exact Nat.div_lt_self (by omega) (by omega)

/-- Decimal rendering of an integer, as Python's `f"{n}"`. -/
def intToChars (n : Int) : Str :=
  if n < 0 then '-' :: natToChars n.natAbs else natToChars n.natAbs

/-- Is `c` an ASCII decimal digit? -/
def isDig (c : Char) : Bool := 48 ≤ c.toNat && c.toNat ≤ 57

/-- Value of a digit string read left to right. -/
def digitsVal (s : Str) : Nat := s.foldl (fun a c => a * 10 + (c.toNat - 48)) 0

/-- Python `int(s)` on an unsigned digit string: `some` of its value when
`s` is a nonempty string of decimal digits, `none` otherwise. -/
def pyNat (s : Str) : Option Nat :=
  if s ≠ [] ∧ s.all isDig then some (digitsVal s) else none

/-- Python `int(s)`: optional sign followed by a nonempty digit string;
any other input raises `ValueError`, modelled as `none`.  (Python also
tolerates surrounding whitespace and `_` separators; those inputs never
arise in the claims and are modelled as failures.) -/
def pyInt : Str → Option Int
  | '-' :: rest => (pyNat rest).map (fun n => -(n : Int))
  | '+' :: rest => (pyNat rest).map (fun n => (n : Int))
  | s => (pyNat s).map (fun n => (n : Int))

/-! ## Python `str.split('|')` -/

/-- Python's `s.split('|')`: every occurrence of `'|'` separates fields,
empty fields are kept, and the result is never empty. -/
def pySplit : Str → List Str
  | [] => [[]]
  | c :: cs =>
    let r := pySplit cs
    if c = '|' then [] :: r else (c :: r.headI) :: r.tail

/-! ## QR token codec

`Student.generate_qr_payload` (mess/models.py) and `validate_qr_payload`
(core/utils.py).  Both are parametrised over the abstract raw digest
`digest secret data`; the Python code uses
`hmac.new(secret, data, sha256).hexdigest()`, i.e. `hexOfBytes (digest secret data)`. -/

/-- `Student.generate_qr_payload` (mess/models.py:85-93):
`data = f"v|{id}|{qr_version}|{qr_nonce}"`, then appends the hex HMAC of
`data` keyed by `secret`. -/
def generate_qr_payload (digest : Str → Str → List Nat) (secret : Str)
    (id : Nat) (qr_version : Int) (qr_nonce : Str) : Str :=
  let data : Str :=
    'v' :: '|' :: (natToChars id ++ '|' :: (intToChars qr_version ++ '|' :: qr_nonce))
  data ++ '|' :: hexOfBytes (digest secret data)

/-- `validate_qr_payload` (core/utils.py:23-57): split on `'|'`; exactly five
fields required; recompute the hex HMAC over the first four fields re-joined
with `'|'`; constant-time-compare it with the fifth field; on a match parse
the second field with `int(...)`.  Any failure (wrong field count, signature
mismatch, or the `ValueError` from `int(...)`, caught by the enclosing
`try/except`) yields `(False, None)`; the function never raises. -/
def validate_qr_payload (digest : Str → Str → List Nat) (payload secret : Str) :
    Bool × Option Int :=
  match pySplit payload with
  | [version, student_id, qr_version, nonce, signature] =>
    let data : Str :=
      version ++ '|' :: (student_id ++ '|' :: (qr_version ++ '|' :: nonce))
    if signature = hexOfBytes (digest secret data) then
      match pyInt student_id with
      | some n => (true, some n)
      | none => (false, none)
    else (false, none)
  | _ => (false, none)

/-! ## Data model (mess/models.py) -/

/-- `StudentStatus` choices. -/
inductive StudentStatus
  | pending
  | approved
  | denied
deriving DecidableEq, Repr

/-- `PaymentStatus` choices. -/
inductive PaymentStatus
  | nonePaid
  | uploaded
  | verified
  | deniedPay
deriving DecidableEq, Repr

/-- `MealType` choices. -/
inductive MealType
  | breakfast
  | lunch
  | dinner
deriving DecidableEq, Repr

/-- `ScanResult` choices: the five enumerated scan outcomes. -/
inductive ScanResult
  | allowed
  | blockedNoPayment
  | blockedCut
  | blockedStatus
  | blockedClosure
deriving DecidableEq, Repr

/-- `Student` row (the fields the core consults). -/
structure Student where
  id : Nat
  status : StudentStatus
  qr_version : Nat
  qr_nonce : Str
deriving DecidableEq, Repr

/-- `Payment` row. -/
structure Payment where
  student_id : Nat
  cycle_start : Nat
  cycle_end : Nat
  status : PaymentStatus
deriving DecidableEq, Repr

/-- `MessCut` row (with the `cutoff_ok` stamp). -/
structure MessCutRow where
  student_id : Nat
  from_date : Nat
  to_date : Nat
  cutoff_ok : Bool
deriving DecidableEq, Repr

/-- `MessClosure` row. -/
structure ClosureRow where
  from_date : Nat
  to_date : Nat
deriving DecidableEq, Repr

/-- `ScanEvent` row (append-only audit record). -/
structure ScanEvent where
  student_id : Nat
  meal : MealType
  result : ScanResult
  device_info : String
deriving DecidableEq, Repr

/-- The relational store, as explicit lists of rows. -/
structure DB where
  students : List Student
  payments : List Payment
  messCuts : List MessCutRow
  closures : List ClosureRow
  scanEvents : List ScanEvent
deriving DecidableEq, Repr

/-! ## Time

`timezone.now()` under `USE_TZ = True` is UTC; an instant is `now` minutes
since epoch.  `TIME_ZONE` defaults to `Asia/Kolkata` (UTC+05:30). -/

/-- Facility (IST) offset from UTC in minutes. -/
def istOffsetMin : Nat := 330

/-- `timezone.now().date()`: the UTC calendar date of the instant. -/
def utcDate (now : Nat) : Nat := now / 1440

/-- `timezone.now().time()`: the UTC time of day of the instant, minutes. -/
def utcTimeOfDay (now : Nat) : Nat := now % 1440

/-- The facility-local (IST) calendar date of the instant. -/
def istDate (now : Nat) : Nat := (now + istOffsetMin) / 1440

/-- The facility-local (IST) time of day of the instant, in minutes. -/
def istTimeOfDay (now : Nat) : Nat := (now + istOffsetMin) % 1440

/-! ## Access decision engine (mess/serializers.py, `QRScanSerializer`) -/

/-- `Student.has_valid_payment` (mess/models.py:101-108): is there a payment
of this student with `status = VERIFIED` and `cycle_start ≤ d ≤ cycle_end`? -/
def has_valid_payment (db : DB) (sid : Nat) (d : Nat) : Bool :=
  db.payments.any fun p =>
    p.student_id == sid && p.status == PaymentStatus.verified &&
      decide (p.cycle_start ≤ d) && decide (d ≤ p.cycle_end)

/-- `student.mess_cuts.filter(from_date__lte=today, to_date__gte=today).exists()`. -/
def hasActiveCut (db : DB) (sid : Nat) (d : Nat) : Bool :=
  db.messCuts.any fun c =>
    c.student_id == sid && decide (c.from_date ≤ d) && decide (d ≤ c.to_date)

/-- `MessClosure.objects.filter(from_date__lte=today, to_date__gte=today).exists()`. -/
def hasActiveClosure (db : DB) (d : Nat) : Bool :=
  db.closures.any fun cl => decide (cl.from_date ≤ d) && decide (d ≤ cl.to_date)

/-- `QRScanSerializer._determine_scan_result` (mess/serializers.py:250-276):
the fixed status → payment → cut → closure cascade, at date `today`
(which the caller computes as `timezone.now().date()`, i.e. `utcDate now`). -/
def determine_scan_result (db : DB) (s : Student) (today : Nat) : ScanResult :=
  if s.status ≠ StudentStatus.approved then ScanResult.blockedStatus
  else if !has_valid_payment db s.id today then ScanResult.blockedNoPayment
  else if hasActiveCut db s.id today then ScanResult.blockedCut
  else if hasActiveClosure db today then ScanResult.blockedClosure
  else ScanResult.allowed

/-- A scan request as received by `QRScanSerializer`: `meal := none` models a
request body with no `meal` key (the field is `required=False`). -/
structure ScanRequest where
  qr_data : Str
  meal : Option MealType
  device_info : String
deriving Repr

/-- A request-level failure of a scan attempt: `validation` is a DRF
`ValidationError` (HTTP 400 with the given detail message), `server` is an
uncaught exception (HTTP 500).  Either way the enclosing
`@transaction.atomic` means nothing is written. -/
inductive ScanErr
  | validation (msg : String)
  | server (msg : String)
deriving DecidableEq, Repr

/-- `QRScanSerializer.validate_qr_data` failure message (serializers.py:206). -/
def invalidQrMsg : String := "Invalid QR code"

/-- `QRScanSerializer.create` missing-student message (serializers.py:229). -/
def studentNotFoundMsg : String := "Student not found"

/-- `QRScanSerializer.validate_meal` no-active-meal message (serializers.py:216-218). -/
def noMealMsg : String := "No meal service active. Please select meal manually."

/-- The `KeyError: 'meal'` raised by `validated_data['meal']` in
`QRScanSerializer.create` (serializers.py:237) when the request omitted the
optional `meal` field: DRF raises `SkipField` for an absent non-required
field without a default, so `validate_meal` is never invoked and
`validated_data` has no `'meal'` key. -/
def keyErrorMealMsg : String := "KeyError: meal"

/-- One scan attempt through `QRScanSerializer` (`is_valid` + `save`), as
driven by `QRScanView.post` (mess/views.py:320-350):
1. `validate_qr_data`: token signature check; failure raises
   `ValidationError("Invalid QR code")` — no `ScanEvent`.
2. the `meal` field: a present (valid-choice) value passes through
   `validate_meal` unchanged; an absent field is skipped by DRF
   (`SkipField`), so `validated_data` lacks `'meal'`.
3. `create`: `Student.objects.get(id=...)`; `DoesNotExist` becomes
   `ValidationError("Student not found")` — no `ScanEvent`.
4. `_determine_scan_result`, with `today = timezone.now().date()` (UTC).
5. `ScanEvent.objects.create(...)` — reading `validated_data['meal']`
   raises `KeyError` if the field was omitted; otherwise exactly one
   `ScanEvent` row is appended and the decided result returned. -/
def scanPipeline (digest : Str → Str → List Nat) (secret : Str) (db : DB)
    (now : Nat) (req : ScanRequest) : Except ScanErr (DB × ScanResult) :=
  match validate_qr_payload digest req.qr_data secret with
  | (true, some sid) =>
    match db.students.find? (fun st => (st.id : Int) == sid) with
    | none => .error (.validation studentNotFoundMsg)
    | some s =>
      let result := determine_scan_result db s (utcDate now)
      match req.meal with
      | none => .error (.server keyErrorMealMsg)
      | some m =>
        let ev : ScanEvent :=
          { student_id := s.id, meal := m, result := result,
            device_info := req.device_info }
        .ok ({ db with scanEvents := db.scanEvents ++ [ev] }, result)
  | _ => .error (.validation invalidQrMsg)

/-! ## Meal auto-detection (core/utils.py:126-145)

`get_current_meal` converts `timezone.now()` to the configured facility
timezone (the code reads `settings.TIMEZONE` and applies `astimezone`)
before comparing against the configured meal windows, and returns the first
configured window whose inclusive `[start, end]` range contains the current
time of day, or `None`. -/

/-- A configured meal window: meal, start and end minutes of day (inclusive). -/
abbrev MealWindow := MealType × Nat × Nat

/-- `settings.MEAL_TIMINGS` (config/settings.py:232-236):
breakfast 07:00-09:30, lunch 12:00-14:30, dinner 19:00-21:30. -/
def mealTimings : List MealWindow :=
  [(MealType.breakfast, 7 * 60, 9 * 60 + 30),
   (MealType.lunch, 12 * 60, 14 * 60 + 30),
   (MealType.dinner, 19 * 60, 21 * 60 + 30)]

/-- `get_current_meal` (core/utils.py:126-145): facility-local time of day,
first configured window containing it (inclusive at both ends). -/
def get_current_meal (timings : List MealWindow) (now : Nat) : Option MealType :=
  let t := istTimeOfDay now
  (timings.find? fun w => decide (w.2.1 ≤ t) && decide (t ≤ w.2.2)).map (·.1)

/-- `QRScanSerializer.validate_meal` (mess/serializers.py:211-219) as written:
auto-detect the meal when the value is falsy, and reject the request with
`"No meal service active. Please select meal manually."` when no window is
active.  (Unreachable for an omitted field — see `scanPipeline` — because
DRF skips field validators for absent optional fields.) -/
def validate_meal (timings : List MealWindow) (now : Nat)
    (value : Option MealType) : Except String MealType :=
  match value with
  | some v => .ok v
  | none =>
    match get_current_meal timings now with
    | some m => .ok m
    | none => .error noMealMsg

/-! ## Mess-cut submission (mess/serializers.py:123-165, mess/views.py:232-276) -/

/-- `MESS_CUT_CUTOFF_TIME = '23:00'`, in minutes of day. -/
def cutoffMin : Nat := 23 * 60

/-- The rejection reasons `MessCutSerializer.validate` can raise. -/
inductive CutErr
  | cutoffPassed
  | invalidRange
  | pastDates
  | overlapping
deriving DecidableEq, Repr

/-- The overlap queryset of `MessCutSerializer.validate`
(serializers.py:153-160): cuts of the same student not excluded by
`to_date < from_date` or `from_date > to_date`. -/
def overlapExists (db : DB) (sid fd td : Nat) : Bool :=
  db.messCuts.any fun c =>
    c.student_id == sid && !decide (c.to_date < fd) && !decide (c.from_date > td)

/-- One mess-cut application through `MessCutSerializer.validate` followed
by `MessCutView.create` (the view re-stamps `cutoff_ok` after saving):
* `now = timezone.now()` (UTC); `tomorrow = (now + 1 day).date()`;
* if `from_date ≤ tomorrow` and `now.time() > 23:00` → reject (cutoff);
* if `from_date > to_date` → reject (invalid range);
* if `to_date < now.date()` → reject (past dates);
* if an overlapping cut of the student exists → reject (overlap);
* otherwise the row is stored and stamped
  `cutoff_ok := from_date ≤ tomorrow ∧ now.time() ≤ 23:00`
  (mess/views.py:246-253). -/
def submitMessCut (db : DB) (now : Nat) (sid fd td : Nat) :
    Except CutErr (DB × MessCutRow) :=
  let nowDate := utcDate now
  let tomorrow := nowDate + 1
  let nowTime := utcTimeOfDay now
  if fd ≤ tomorrow && decide (nowTime > cutoffMin) then .error .cutoffPassed
  else if fd > td then .error .invalidRange
  else if td < nowDate then .error .pastDates
  else if overlapExists db sid fd td then .error .overlapping
  else
    let row : MessCutRow :=
      { student_id := sid, from_date := fd, to_date := td,
        cutoff_ok := decide (fd ≤ tomorrow) && decide (nowTime ≤ cutoffMin) }
    .ok ({ db with messCuts := db.messCuts ++ [row] }, row)

/-! ## QR rotation (mess/models.py:95-99) -/

/-- `Student.regenerate_qr`: `qr_version += 1`,
`qr_nonce = secrets.token_hex(32)`; the 32 random bytes drawn by
`secrets.token_hex` are passed in explicitly. -/
def regenerate_qr (s : Student) (randomBytes : List Nat) : Student :=
  { s with qr_version := s.qr_version + 1, qr_nonce := hexOfBytes randomBytes }

/-- The operations the code performs on a `Student` row: administrative
status changes, and QR rotation (`regenerate_qr`, carrying the random bytes
drawn for the new nonce).  No other code path writes `qr_version` or
`qr_nonce`. -/
inductive StudentOp
  | approve
  | deny
  | rotate (randomBytes : List Nat)
deriving DecidableEq, Repr

/-- Apply one operation to a `Student` row. -/
def applyOp (s : Student) : StudentOp → Student
  | .approve => { s with status := StudentStatus.approved }
  | .deny => { s with status := StudentStatus.denied }
  | .rotate bs => regenerate_qr s bs

/-- Apply a sequence of operations. -/
def runOps (s : Student) (ops : List StudentOp) : Student :=
  ops.foldl applyOp s

/-- A trace is fresh when every rotation's freshly drawn nonce differs from
the nonce currently stored (what `secrets.token_hex(32)`'s 256 bits of
randomness guarantee up to negligible probability). -/
def freshAlong (s : Student) : List StudentOp → Bool
  | [] => true
  | op :: ops =>
    (match op with
     | .rotate bs => hexOfBytes bs ≠ s.qr_nonce
     | _ => true) &&
    freshAlong (applyOp s op) ops

/-! ## Lemmas: digits, hex, splitting, parsing -/

lemma isDig_digitChar (d : Nat) (h : d < 10) : isDig (digitChar d) = true := by
  interval_cases d <;> decide

lemma toNat_digitChar (d : Nat) (h : d < 10) : (digitChar d).toNat = 48 + d := by
  interval_cases d <;> decide

lemma hexDigit_ne_pipe (d : Nat) : hexDigit d ≠ '|' := by
  unfold hexDigit; split <;> decide

lemma pipe_not_mem_hexOfBytes (bs : List Nat) : '|' ∉ hexOfBytes bs := by
  intro hmem
  simp only [hexOfBytes, List.mem_flatten, List.mem_map] at hmem
  obtain ⟨l, ⟨b, _, rfl⟩, hl⟩ := hmem
  simp only [byteToHex, List.mem_cons, List.not_mem_nil, or_false] at hl
  rcases hl with h | h <;> exact hexDigit_ne_pipe _ h.symm

lemma length_hexOfBytes (bs : List Nat) : (hexOfBytes bs).length = 2 * bs.length := by
  induction bs with
  | nil => rfl
  | cons b bs ih =>
    simp only [hexOfBytes, List.map_cons, List.flatten_cons] at ih ⊢
    simp [byteToHex, ih, List.length_append]
    omega

lemma natToChars_ne_nil (n : Nat) : natToChars n ≠ [] := by
  unfold natToChars
  split
  · simp
  · simp

lemma natToChars_all_isDig (n : Nat) : (natToChars n).all isDig = true := by
  induction n using natToChars.induct with
  | case1 n h =>
    rw [natToChars, if_pos h]
    simp [isDig_digitChar n h]
  | case2 n h ih =>
    rw [natToChars, if_neg h]
    simp only [List.all_append, List.all_cons, List.all_nil, Bool.and_true,
      Bool.and_eq_true] at ih ⊢
    exact ⟨ih, isDig_digitChar _ (Nat.mod_lt _ (by omega))⟩

lemma isDig_char_facts {c : Char} (h : isDig c = true) :
    c ≠ '-' ∧ c ≠ '+' ∧ c ≠ '|' := by
  refine ⟨?_, ?_, ?_⟩ <;> rintro rfl <;> exact absurd h (by decide)

lemma pipe_not_mem_natToChars (n : Nat) : '|' ∉ natToChars n := by
  intro hmem
  have hall := natToChars_all_isDig n
  rw [List.all_eq_true] at hall
  exact (isDig_char_facts (hall _ hmem)).2.2 rfl

lemma pipe_not_mem_intToChars (n : Int) : '|' ∉ intToChars n := by
  unfold intToChars
  split
  · intro hmem
    rcases List.mem_cons.mp hmem with h | h
    · exact absurd h.symm (by decide)
    · exact pipe_not_mem_natToChars _ h
  · exact pipe_not_mem_natToChars _

lemma digitsVal_append_digit (a : Str) (c : Char) :
    digitsVal (a ++ [c]) = 10 * digitsVal a + (c.toNat - 48) := by
  simp only [digitsVal, List.foldl_append, List.foldl_cons, List.foldl_nil]
  omega

lemma digitsVal_natToChars (n : Nat) : digitsVal (natToChars n) = n := by
  induction n using natToChars.induct with
  | case1 n h =>
    rw [natToChars, if_pos h]
    simp only [digitsVal, List.foldl_cons, List.foldl_nil]
    rw [toNat_digitChar n h]
    omega
  | case2 n h ih =>
    rw [natToChars, if_neg h]
    rw [digitsVal_append_digit, ih, toNat_digitChar _ (Nat.mod_lt _ (by omega))]
    omega

lemma pyNat_of_digits (s : Str) (h1 : s ≠ []) (h2 : s.all isDig = true) :
    pyNat s = some (digitsVal s) := by
  unfold pyNat
  split
  · rfl
  · rename_i hneg
    exact absurd ⟨h1, h2⟩ hneg

lemma pyInt_eq_unsigned (c : Char) (cs : Str) (h1 : c ≠ '-') (h2 : c ≠ '+') :
    pyInt (c :: cs) = (pyNat (c :: cs)).map (fun n => (n : Int)) := by
  unfold pyInt
  split
  · rename_i heq; cases heq; exact absurd rfl h1
  · rename_i heq; cases heq; exact absurd rfl h2
  · rfl

lemma pyInt_natToChars (n : Nat) : pyInt (natToChars n) = some (n : Int) := by
  obtain ⟨c, cs, hc⟩ : ∃ c cs, natToChars n = c :: cs := by
    cases h : natToChars n with
    | nil => exact absurd h (natToChars_ne_nil n)
    | cons c cs => exact ⟨c, cs, rfl⟩
  have hall := natToChars_all_isDig n
  have hc0 : isDig c = true := by
    rw [hc] at hall
    simp only [List.all_cons, Bool.and_eq_true] at hall
    exact hall.1
  rw [hc, pyInt_eq_unsigned c cs (isDig_char_facts hc0).1 (isDig_char_facts hc0).2.1,
    pyNat_of_digits _ (by simp) (by rw [← hc]; exact hall)]
  rw [← hc, digitsVal_natToChars]
  rfl

/-! ### `pySplit` lemmas -/

lemma pySplit_ne_nil (s : Str) : pySplit s ≠ [] := by
  cases s with
  | nil => simp [pySplit]
  | cons c cs =>
    simp only [pySplit]
    split <;> simp

lemma pySplit_cons_pipe (cs : Str) : pySplit ('|' :: cs) = [] :: pySplit cs := by
  simp [pySplit]

lemma pySplit_cons_ne (c : Char) (cs : Str) (hc : c ≠ '|') :
    pySplit (c :: cs) = (c :: (pySplit cs).headI) :: (pySplit cs).tail := by
  simp [pySplit, if_neg hc]

lemma pySplit_no_pipe (s : Str) (h : '|' ∉ s) : pySplit s = [s] := by
  induction s with
  | nil => rfl
  | cons c cs ih =>
    have hc : c ≠ '|' := fun hc => h (hc ▸ List.mem_cons_self c cs)
    have hcs : '|' ∉ cs := fun hm => h (List.mem_cons_of_mem c hm)
    rw [pySplit_cons_ne c cs hc, ih hcs]
    rfl

lemma pySplit_append_pipe (a rest : Str) (h : '|' ∉ a) :
    pySplit (a ++ '|' :: rest) = a :: pySplit rest := by
  induction a with
  | nil => simp [pySplit_cons_pipe]
  | cons c a' ih =>
    have hc : c ≠ '|' := fun hc => h (hc ▸ List.mem_cons_self c a')
    have ha' : '|' ∉ a' := fun hm => h (List.mem_cons_of_mem c hm)
    rw [List.cons_append, pySplit_cons_ne c _ hc, ih ha']
    rfl

lemma pySplit_five (a b c d e : Str)
    (ha : '|' ∉ a) (hb : '|' ∉ b) (hc : '|' ∉ c) (hd : '|' ∉ d) (he : '|' ∉ e) :
    pySplit (a ++ '|' :: (b ++ '|' :: (c ++ '|' :: (d ++ '|' :: e)))) =
      [a, b, c, d, e] := by
  rw [pySplit_append_pipe _ _ ha, pySplit_append_pipe _ _ hb,
    pySplit_append_pipe _ _ hc, pySplit_append_pipe _ _ hd, pySplit_no_pipe _ he]

/-! ## Concrete sample data (used by witnesses and counterexamples) -/

/-- A concrete digest for witnesses: its hexdigest is the empty string. -/
def nullDigest : Str → Str → List Nat := fun _ _ => []

/-- A concrete approved student with id 1. -/
def sampleStudent : Student :=
  { id := 1, status := StudentStatus.approved, qr_version := 1, qr_nonce := ['n'] }

/-- A concrete store: the approved student 1 with a VERIFIED payment
covering days 0-200, no cuts, no closures, no scan events. -/
def sampleDB : DB :=
  { students := [sampleStudent],
    payments := [{ student_id := 1, cycle_start := 0, cycle_end := 200,
                   status := PaymentStatus.verified }],
    messCuts := [], closures := [], scanEvents := [] }

/-- A token accepted by `nullDigest`: five fields, entity id 1, empty
signature (`hexOfBytes [] = ""`). -/
def sampleToken : Str := "v|1|1|n|".data

/-- The empty store. -/
def emptyDB : DB :=
  { students := [], payments := [], messCuts := [], closures := [],
    scanEvents := [] }

/-! ## Claim theorems -/

/-- C2: for every entity id (a decimal integer), every `qr_version`, every
nonce containing no `'|'`, and every secret, validating the token produced
by `Student.generate_qr_payload` under the same secret (and the same digest
function, since HMAC-SHA256 is deterministic) returns `(True, entity_id)`. -/
theorem qr_token_roundtrip (digest : Str → Str → List Nat) (id : Nat)
    (qr_version : Int) (nonce secret : Str) (hn : '|' ∉ nonce) :
    validate_qr_payload digest
        (generate_qr_payload digest secret id qr_version nonce) secret
      = (true, some (id : Int)) := by
  have hpayload : generate_qr_payload digest secret id qr_version nonce
      = ['v'] ++ '|' :: (natToChars id ++ '|' ::
          (intToChars qr_version ++ '|' :: (nonce ++ '|' ::
            hexOfBytes (digest secret
              ('v' :: '|' :: (natToChars id ++ '|' ::
                (intToChars qr_version ++ '|' :: nonce))))))) := by
    simp [generate_qr_payload, List.cons_append, List.append_assoc]
  rw [validate_qr_payload, hpayload, pySplit_five _ _ _ _ _ (by decide)
    (pipe_not_mem_natToChars id) (pipe_not_mem_intToChars qr_version) hn
    (pipe_not_mem_hexOfBytes _)]
  simp only [List.cons_append, List.nil_append, if_pos, pyInt_natToChars]

/-- Witness for C2 at concrete inputs. -/
theorem qr_token_roundtrip_witness :
    validate_qr_payload (fun _ _ => [222, 173, 190, 239])
        (generate_qr_payload (fun _ _ => [222, 173, 190, 239])
          "secret0".data 42 3 "abc123".data) "secret0".data
      = (true, some (42 : Int)) :=
  qr_token_roundtrip (fun _ _ => [222, 173, 190, 239]) 42 3 "abc123".data
    "secret0".data (by decide)

/-- C3: token validation is total (it is a Lean function, so it never
raises) and fails closed with `(False, None)` whenever (1) the input does
not split into exactly five `'|'`-delimited fields, (2) the entity-id field
fails to parse as an integer, or (3) the signature field differs from the
HMAC recomputed over the first four fields. -/
theorem qr_validate_fails_closed :
    (∀ (digest : Str → Str → List Nat) (payload secret : Str),
        (pySplit payload).length ≠ 5 →
        validate_qr_payload digest payload secret = (false, none)) ∧
    (∀ (digest : Str → Str → List Nat) (payload secret v i q n sg : Str),
        pySplit payload = [v, i, q, n, sg] → pyInt i = none →
        validate_qr_payload digest payload secret = (false, none)) ∧
    (∀ (digest : Str → Str → List Nat) (payload secret v i q n sg : Str),
        pySplit payload = [v, i, q, n, sg] →
        sg ≠ hexOfBytes (digest secret (v ++ '|' :: (i ++ '|' :: (q ++ '|' :: n)))) →
        validate_qr_payload digest payload secret = (false, none)) := by
  refine ⟨?_, ?_, ?_⟩
  · intro digest payload secret hlen
    unfold validate_qr_payload
    split
    · rename_i v i q n sg heq
      rw [heq] at hlen
      simp at hlen
    · rfl
  · intro digest payload secret v i q n sg heq hpi
    unfold validate_qr_payload
    split
    · rename_i v' i' q' n' sg' heq'
      rw [heq] at heq'
      simp only [List.cons.injEq, and_true] at heq'
      obtain ⟨rfl, rfl, rfl, rfl, rfl⟩ := heq'
      split
      · rename_i hm
        rw [hpi] at hm
        simp at hm
      · simp
    · rfl
  · intro digest payload secret v i q n sg heq hsg
    unfold validate_qr_payload
    split
    · rename_i v' i' q' n' sg' heq'
      rw [heq] at heq'
      simp only [List.cons.injEq, and_true] at heq'
      obtain ⟨rfl, rfl, rfl, rfl, rfl⟩ := heq'
      rw [if_neg hsg]
    · rfl

/-- Witness for C3: each of the three failure modes at a concrete input. -/
theorem qr_validate_fails_closed_witness :
    validate_qr_payload (fun _ _ => []) "abc".data "k".data = (false, none) ∧
    validate_qr_payload (fun _ _ => []) "v|x|1|n|".data "k".data = (false, none) ∧
    validate_qr_payload (fun _ _ => [0]) "v|7|1|n|bad".data "k".data = (false, none) :=
  ⟨qr_validate_fails_closed.1 (fun _ _ => []) "abc".data "k".data (by decide),
   qr_validate_fails_closed.2.1 (fun _ _ => []) "v|x|1|n|".data "k".data
     "v".data "x".data "1".data "n".data "".data (by decide) (by decide),
   qr_validate_fails_closed.2.2 (fun _ _ => [0]) "v|7|1|n|bad".data "k".data
     "v".data "7".data "1".data "n".data "bad".data (by decide) (by decide)⟩

/-! ### Decision-cascade characterization (C1) -/

/-- Spec-side reading of the payment check: some stored payment of the
entity has status VERIFIED and `cycle_start ≤ d ≤ cycle_end` (inclusive). -/
def VerifiedPaymentCovers (db : DB) (sid d : Nat) : Prop :=
  ∃ p ∈ db.payments, p.student_id = sid ∧ p.status = PaymentStatus.verified ∧
    p.cycle_start ≤ d ∧ d ≤ p.cycle_end

/-- Spec-side reading of the mess-cut check: some mess cut of the entity has
`from_date ≤ d ≤ to_date` (inclusive). -/
def ActiveCutOn (db : DB) (sid d : Nat) : Prop :=
  ∃ c ∈ db.messCuts, c.student_id = sid ∧ c.from_date ≤ d ∧ d ≤ c.to_date

/-- Spec-side reading of the closure check: some global closure has
`from_date ≤ d ≤ to_date` (inclusive). -/
def ActiveClosureOn (db : DB) (d : Nat) : Prop :=
  ∃ cl ∈ db.closures, cl.from_date ≤ d ∧ d ≤ cl.to_date

lemma has_valid_payment_iff (db : DB) (sid d : Nat) :
    has_valid_payment db sid d = true ↔ VerifiedPaymentCovers db sid d := by
  simp [has_valid_payment, VerifiedPaymentCovers, List.any_eq_true,
    Bool.and_eq_true, decide_eq_true_eq, beq_iff_eq, and_assoc]

lemma hasActiveCut_iff (db : DB) (sid d : Nat) :
    hasActiveCut db sid d = true ↔ ActiveCutOn db sid d := by
  simp [hasActiveCut, ActiveCutOn, List.any_eq_true,
    Bool.and_eq_true, decide_eq_true_eq, beq_iff_eq, and_assoc]

lemma hasActiveClosure_iff (db : DB) (d : Nat) :
    hasActiveClosure db d = true ↔ ActiveClosureOn db d := by
  simp [hasActiveClosure, ActiveClosureOn, List.any_eq_true,
    Bool.and_eq_true, decide_eq_true_eq, and_assoc]

/-- C1: `_determine_scan_result` is exactly the fixed cascade, in order:
not APPROVED ⇒ BLOCKED_STATUS; else no VERIFIED payment covering today
(inclusive) ⇒ BLOCKED_NO_PAYMENT; else an active cut (inclusive) ⇒
BLOCKED_CUT; else an active closure (inclusive) ⇒ BLOCKED_CLOSURE; else
ALLOWED.  Stated as an iff-characterization of each of the five outcomes. -/
theorem scan_decision_cascade :
    (∀ (db : DB) (s : Student) (today : Nat),
      (determine_scan_result db s today = ScanResult.blockedStatus ↔
        s.status ≠ StudentStatus.approved) ∧
      (determine_scan_result db s today = ScanResult.blockedNoPayment ↔
        s.status = StudentStatus.approved ∧
          ¬ VerifiedPaymentCovers db s.id today) ∧
      (determine_scan_result db s today = ScanResult.blockedCut ↔
        s.status = StudentStatus.approved ∧ VerifiedPaymentCovers db s.id today ∧
          ActiveCutOn db s.id today) ∧
      (determine_scan_result db s today = ScanResult.blockedClosure ↔
        s.status = StudentStatus.approved ∧ VerifiedPaymentCovers db s.id today ∧
          ¬ ActiveCutOn db s.id today ∧ ActiveClosureOn db today) ∧
      (determine_scan_result db s today = ScanResult.allowed ↔
        s.status = StudentStatus.approved ∧ VerifiedPaymentCovers db s.id today ∧
          ¬ ActiveCutOn db s.id today ∧ ¬ ActiveClosureOn db today)) ∧
    (∀ (digest : Str → Str → List Nat) (secret : Str) (db : DB) (now : Nat)
        (req : ScanRequest) (p : DB × ScanResult),
      scanPipeline digest secret db now req = .ok p →
      ∃ (sid : Int) (s : Student),
        validate_qr_payload digest req.qr_data secret = (true, some sid) ∧
        db.students.find? (fun st => (st.id : Int) == sid) = some s ∧
        p.2 = determine_scan_result db s (utcDate now)) := by
  constructor
  · intro db s today
    have hpay := has_valid_payment_iff db s.id today
    have hcut := hasActiveCut_iff db s.id today
    have hclo := hasActiveClosure_iff db today
    by_cases h1 : s.status = StudentStatus.approved
    · cases hpb : has_valid_payment db s.id today <;>
        cases hcb : hasActiveCut db s.id today <;>
          cases hclb : hasActiveClosure db today <;>
            simp [determine_scan_result, h1, hpb, hcb, hclb, ← hpay, ← hcut, ← hclo]
    · simp [determine_scan_result, h1, ← hpay, ← hcut, ← hclo]
  · intro digest secret db now req p h
    unfold scanPipeline at h
    split at h
    · rename_i sid hv
      split at h
      · simp at h
      · rename_i s hf
        split at h
        · simp at h
        · rename_i m hm
          simp only [Except.ok.injEq] at h
          exact ⟨sid, s, hv, hf, by rw [← h]⟩
    · simp at h

/-- Witness for C1's pipeline conjunct at a concrete successful scan. -/
theorem scan_decision_cascade_witness :
    ∃ (sid : Int) (s : Student),
      validate_qr_payload nullDigest sampleToken "k".data = (true, some sid) ∧
      sampleDB.students.find? (fun st => (st.id : Int) == sid) = some s ∧
      (ScanResult.allowed = determine_scan_result sampleDB s (utcDate 0)) :=
  scan_decision_cascade.2 nullDigest "k".data sampleDB 0
    { qr_data := sampleToken, meal := some MealType.lunch, device_info := "d" }
    ({ sampleDB with scanEvents :=
        [{ student_id := sampleStudent.id, meal := MealType.lunch,
           result := ScanResult.allowed, device_info := "d" }] },
     ScanResult.allowed)
    (by rfl)

/-! ### Scan-event write discipline (C4) -/

/-- C4 (amended): a scan whose token fails validation, or whose entity id
resolves to no stored student, is a request-level error and writes no
`ScanEvent`; a scan that passes both checks *and carries a meal value*
writes exactly one `ScanEvent`, whose `result` is the decided outcome (one
of the five enumerated constructors of `ScanResult`).  (As the claim stands
it is false: a scan passing both checks with the optional `meal` field
omitted dies with a `KeyError` and writes nothing — see the
counterexample.) -/
theorem scan_event_write_discipline :
    (∀ (digest : Str → Str → List Nat) (secret : Str) (db : DB) (now : Nat)
        (req : ScanRequest) (o : Option Int),
      validate_qr_payload digest req.qr_data secret = (false, o) →
      scanPipeline digest secret db now req =
        .error (.validation invalidQrMsg)) ∧
    (∀ (digest : Str → Str → List Nat) (secret : Str) (db : DB) (now : Nat)
        (req : ScanRequest) (sid : Int),
      validate_qr_payload digest req.qr_data secret = (true, some sid) →
      db.students.find? (fun st => (st.id : Int) == sid) = none →
      scanPipeline digest secret db now req =
        .error (.validation studentNotFoundMsg)) ∧
    (∀ (digest : Str → Str → List Nat) (secret : Str) (db : DB) (now : Nat)
        (req : ScanRequest) (sid : Int) (s : Student) (m : MealType),
      validate_qr_payload digest req.qr_data secret = (true, some sid) →
      db.students.find? (fun st => (st.id : Int) == sid) = some s →
      req.meal = some m →
      scanPipeline digest secret db now req =
        .ok ({ db with scanEvents := db.scanEvents ++
                [{ student_id := s.id, meal := m,
                   result := determine_scan_result db s (utcDate now),
                   device_info := req.device_info }] },
             determine_scan_result db s (utcDate now))) ∧
    (∀ r : ScanResult,
      r = ScanResult.allowed ∨ r = ScanResult.blockedNoPayment ∨
      r = ScanResult.blockedCut ∨ r = ScanResult.blockedStatus ∨
      r = ScanResult.blockedClosure) := by
  refine ⟨?_, ?_, ?_, ?_⟩
  · intro digest secret db now req o h
    simp only [scanPipeline, h]
  · intro digest secret db now req sid h1 h2
    simp only [scanPipeline, h1, h2]
  · intro digest secret db now req sid s m h1 h2 h3
    simp only [scanPipeline, h1, h2, h3]
  · intro r
    cases r <;> simp

/-- Witness for C4 (amended), all three branches at concrete inputs. -/
theorem scan_event_write_discipline_witness :
    scanPipeline nullDigest "k".data sampleDB 0
        { qr_data := "garbage".data, meal := some MealType.lunch,
          device_info := "d" } = .error (.validation invalidQrMsg) ∧
    scanPipeline nullDigest "k".data sampleDB 0
        { qr_data := "v|9|1|n|".data, meal := some MealType.lunch,
          device_info := "d" } = .error (.validation studentNotFoundMsg) ∧
    scanPipeline nullDigest "k".data sampleDB 0
        { qr_data := sampleToken, meal := some MealType.lunch,
          device_info := "d" } =
      .ok ({ sampleDB with scanEvents :=
              [{ student_id := 1, meal := MealType.lunch,
                 result := ScanResult.allowed, device_info := "d" }] },
           ScanResult.allowed) :=
  ⟨scan_event_write_discipline.1 nullDigest "k".data sampleDB 0
      { qr_data := "garbage".data, meal := some MealType.lunch,
        device_info := "d" } none (by rfl),
   scan_event_write_discipline.2.1 nullDigest "k".data sampleDB 0
      { qr_data := "v|9|1|n|".data, meal := some MealType.lunch,
        device_info := "d" } 9 (by rfl) (by rfl),
   scan_event_write_discipline.2.2.1 nullDigest "k".data sampleDB 0
      { qr_data := sampleToken, meal := some MealType.lunch,
        device_info := "d" } 1 sampleStudent MealType.lunch
      (by rfl) (by rfl) (by rfl)⟩

/-- Counterexample to C4 as stated: this scan's token validates (entity 1)
and the entity is stored, yet the attempt writes no `ScanEvent` — the
request omitted the optional `meal` field, so DRF never ran
`validate_meal`, and `create` dies with `KeyError: 'meal'` (an HTTP 500,
rolled back by `transaction.atomic`). -/
theorem scan_missing_meal_counterexample :
    validate_qr_payload nullDigest sampleToken "k".data = (true, some 1) ∧
    sampleDB.students.find? (fun st => (st.id : Int) == (1 : Int))
      = some sampleStudent ∧
    scanPipeline nullDigest "k".data sampleDB 0
        { qr_data := sampleToken, meal := none, device_info := "d" }
      = .error (.server keyErrorMealMsg) :=
  ⟨by rfl, by rfl, by rfl⟩

/-! ### Error-message uniformity (C7) -/

/-- C7 (amended): the two request-level failure causes each produce a fixed
message — but the two messages are *different* (`"Invalid QR code"` versus
`"Student not found"`), so the response does distinguish a bad token from an
unknown entity, contrary to the claimed uniform generic message. -/
theorem scan_error_message_per_cause :
    (∀ (digest : Str → Str → List Nat) (secret : Str) (db : DB) (now : Nat)
        (req : ScanRequest) (o : Option Int),
      validate_qr_payload digest req.qr_data secret = (false, o) →
      scanPipeline digest secret db now req =
        .error (.validation invalidQrMsg)) ∧
    (∀ (digest : Str → Str → List Nat) (secret : Str) (db : DB) (now : Nat)
        (req : ScanRequest) (sid : Int),
      validate_qr_payload digest req.qr_data secret = (true, some sid) →
      db.students.find? (fun st => (st.id : Int) == sid) = none →
      scanPipeline digest secret db now req =
        .error (.validation studentNotFoundMsg)) ∧
    invalidQrMsg ≠ studentNotFoundMsg := by
  refine ⟨?_, ?_, by decide⟩
  · intro digest secret db now req o h
    simp only [scanPipeline, h]
  · intro digest secret db now req sid h1 h2
    simp only [scanPipeline, h1, h2]

/-- Witness for C7 (amended) at concrete inputs. -/
theorem scan_error_message_per_cause_witness :
    scanPipeline nullDigest "k".data sampleDB 5
        { qr_data := "forged".data, meal := some MealType.dinner,
          device_info := "" } = .error (.validation invalidQrMsg) ∧
    scanPipeline nullDigest "k".data sampleDB 5
        { qr_data := "v|77|1|n|".data, meal := some MealType.dinner,
          device_info := "" } = .error (.validation studentNotFoundMsg) :=
  ⟨scan_error_message_per_cause.1 nullDigest "k".data sampleDB 5
      { qr_data := "forged".data, meal := some MealType.dinner,
        device_info := "" } none (by rfl),
   scan_error_message_per_cause.2.1 nullDigest "k".data sampleDB 5
      { qr_data := "v|77|1|n|".data, meal := some MealType.dinner,
        device_info := "" } 77 (by rfl) (by rfl)⟩

/-- Counterexample to C7 as stated: a malformed-token scan and an
unknown-entity scan against the same store produce *different* user-visible
error messages. -/
theorem scan_error_messages_differ_counterexample :
    scanPipeline nullDigest "k".data sampleDB 5
        { qr_data := "forged!".data, meal := some MealType.lunch,
          device_info := "" } = .error (.validation invalidQrMsg) ∧
    scanPipeline nullDigest "k".data sampleDB 5
        { qr_data := "v|42|1|n|".data, meal := some MealType.lunch,
          device_info := "" } = .error (.validation studentNotFoundMsg) ∧
    invalidQrMsg ≠ studentNotFoundMsg :=
  ⟨by rfl, by rfl, by decide⟩

/-! ### Mess-cut cutoff (C5) -/

/-- Counterexample to C5 as stated: at facility-local (IST) time 23:01 —
instant `145051 = day 100, 17:31 UTC` — a cut for tomorrow is *accepted*
and stamped `cutoff_ok = true`, because the code compares
`timezone.now().time()` (UTC under `USE_TZ = True`) against 23:00; the
claim says such a submission must be rejected (earliest acceptable
`from_date` becoming day-after-tomorrow) or at least stamped
`cutoff_ok = false`. -/
theorem mess_cut_local_cutoff_counterexample :
    istTimeOfDay 145051 = 23 * 60 + 1 ∧
    utcDate 145051 = 100 ∧
    submitMessCut emptyDB 145051 1 101 101 =
      .ok ({ emptyDB with messCuts :=
              [{ student_id := 1, from_date := 101, to_date := 101,
                 cutoff_ok := true }] },
           { student_id := 1, from_date := 101, to_date := 101,
             cutoff_ok := true }) :=
  ⟨by decide, by decide, by rfl⟩

/-- C5 (amended): the cutoff rule is evaluated against the *UTC* wall
clock (`timezone.now()` with `USE_TZ = True`), not facility-local time:
a cut whose `from_date` is on or before UTC-tomorrow is accepted only when
the UTC time of day is at or before 23:00 (so at UTC 22:59 a
`from_date = tomorrow` cut passes the cutoff check and at UTC 23:01 it is
rejected, with the earliest acceptable `from_date` becoming UTC
day-after-tomorrow), and an accepted cut is stamped `cutoff_ok = true`
exactly when its `from_date` is on or before UTC-tomorrow. -/
theorem mess_cut_cutoff_utc :
    (∀ (db : DB) (now sid fd td : Nat),
      fd ≤ utcDate now + 1 → cutoffMin < utcTimeOfDay now →
      submitMessCut db now sid fd td = .error CutErr.cutoffPassed) ∧
    (∀ (db : DB) (now sid fd td : Nat) (db' : DB) (row : MessCutRow),
      submitMessCut db now sid fd td = .ok (db', row) →
      (fd ≤ utcDate now + 1 → utcTimeOfDay now ≤ cutoffMin) ∧
      (row.cutoff_ok = true ↔ fd ≤ utcDate now + 1)) := by
  constructor
  · intro db now sid fd td h1 h2
    simp [submitMessCut, h1, h2]
  · intro db now sid fd td db' row h
    simp only [submitMessCut] at h
    split at h
    · simp at h
    · rename_i h1
      split at h
      · simp at h
      · rename_i h2
        split at h
        · simp at h
        · rename_i h3
          split at h
          · simp at h
          · rename_i h4
            simp only [Except.ok.injEq, Prod.mk.injEq] at h
            obtain ⟨hdb, hrow⟩ := h
            subst hrow
            simp only [Bool.and_eq_true, decide_eq_true_eq, not_and, not_lt] at h1
            constructor
            · exact h1
            · simp only [Bool.and_eq_true, decide_eq_true_eq]
              constructor
              · rintro ⟨hf, _⟩
                exact hf
              · intro hf
                exact ⟨hf, h1 hf⟩

/-- Witness for C5 (amended): rejection at UTC 23:01, and acceptance with
`cutoff_ok = true` stamped, at concrete inputs. -/
theorem mess_cut_cutoff_utc_witness :
    submitMessCut emptyDB (1440 * 100 + 1381) 1 101 101 =
      .error CutErr.cutoffPassed ∧
    (101 ≤ utcDate 145051 + 1 → utcTimeOfDay 145051 ≤ cutoffMin) ∧
    (({ student_id := 1, from_date := 101, to_date := 101,
        cutoff_ok := true } : MessCutRow).cutoff_ok = true ↔
      101 ≤ utcDate 145051 + 1) :=
  ⟨mess_cut_cutoff_utc.1 emptyDB (1440 * 100 + 1381) 1 101 101
      (by decide) (by decide),
   (mess_cut_cutoff_utc.2 emptyDB 145051 1 101 101
      ({ emptyDB with messCuts :=
          [{ student_id := 1, from_date := 101, to_date := 101,
             cutoff_ok := true }] })
      { student_id := 1, from_date := 101, to_date := 101, cutoff_ok := true }
      (by rfl)).1,
   (mess_cut_cutoff_utc.2 emptyDB 145051 1 101 101
      ({ emptyDB with messCuts :=
          [{ student_id := 1, from_date := 101, to_date := 101,
             cutoff_ok := true }] })
      { student_id := 1, from_date := 101, to_date := 101, cutoff_ok := true }
      (by rfl)).2⟩

/-! ### Mess-cut disjointness invariant (C10) -/

/-- The stored cuts of one student. -/
def cutsOf (db : DB) (sid : Nat) : List MessCutRow :=
  db.messCuts.filter (fun c => c.student_id == sid)

/-- Pairwise disjointness of date intervals `[from_date, to_date]`. -/
def DisjointCuts (l : List MessCutRow) : Prop :=
  l.Pairwise (fun a b => a.to_date < b.from_date ∨ b.to_date < a.from_date)

lemma overlapExists_iff (db : DB) (sid fd td : Nat) :
    overlapExists db sid fd td = true ↔
      ∃ c ∈ db.messCuts, c.student_id = sid ∧ fd ≤ c.to_date ∧ c.from_date ≤ td := by
  simp [overlapExists, List.any_eq_true, Bool.and_eq_true, decide_eq_true_eq,
    beq_iff_eq, not_lt, and_assoc]

/-- C10: the validated mess-cut interface rejects any cut intersecting an
existing cut of the same student (whatever its origin), rejects any cut
whose `to_date` lies strictly before today, and consequently preserves
pairwise disjointness of each student's stored cuts. -/
theorem mess_cut_disjointness :
    (∀ (db : DB) (now sid fd td : Nat) (r : DB × MessCutRow),
      (∃ c ∈ db.messCuts, c.student_id = sid ∧ fd ≤ c.to_date ∧ c.from_date ≤ td) →
      submitMessCut db now sid fd td ≠ .ok r) ∧
    (∀ (db : DB) (now sid fd td : Nat) (r : DB × MessCutRow),
      td < utcDate now →
      submitMessCut db now sid fd td ≠ .ok r) ∧
    (∀ (db : DB) (now sid fd td : Nat) (db' : DB) (row : MessCutRow) (s' : Nat),
      submitMessCut db now sid fd td = .ok (db', row) →
      DisjointCuts (cutsOf db s') → DisjointCuts (cutsOf db' s')) := by
  refine ⟨?_, ?_, ?_⟩
  · intro db now sid fd td r hov h
    simp only [submitMessCut] at h
    split at h
    · simp at h
    · split at h
      · simp at h
      · split at h
        · simp at h
        · split at h
          · simp at h
          · rename_i hno
            exact hno ((overlapExists_iff db sid fd td).mpr hov)
  · intro db now sid fd td r hpast h
    by_cases h1 : (decide (fd ≤ utcDate now + 1) &&
        decide (utcTimeOfDay now > cutoffMin)) = true
    · simp [submitMessCut, h1] at h
    · by_cases h2 : fd > td
      · simp [submitMessCut, h1, h2] at h
      · simp [submitMessCut, h1, h2, hpast] at h
  · intro db now sid fd td db' row s' h hdisj
    simp only [submitMessCut] at h
    split at h
    · simp at h
    · split at h
      · simp at h
      · split at h
        · simp at h
        · split at h
          · simp at h
          · rename_i hno
            simp only [Except.ok.injEq, Prod.mk.injEq] at h
            obtain ⟨hdb, hrow⟩ := h
            subst hdb
            have hrf : row.from_date = fd := by rw [← hrow]
            have hrt : row.to_date = td := by rw [← hrow]
            have hrs : row.student_id = sid := by rw [← hrow]
            have hno' : ∀ c ∈ db.messCuts,
                ¬(c.student_id = sid ∧ fd ≤ c.to_date ∧ c.from_date ≤ td) := by
              intro c hc hcon
              exact hno ((overlapExists_iff db sid fd td).mpr ⟨c, hc, hcon⟩)
            unfold DisjointCuts cutsOf at hdisj ⊢
            rw [hrow]
            simp only [List.filter_append]
            rw [List.pairwise_append]
            refine ⟨hdisj, ?_, ?_⟩
            · cases hcase : (row.student_id == s') <;>
                simp [List.filter, hcase]
            · intro a ha b hb
              have hmem := (List.mem_filter.mp ha).1
              have hasid : a.student_id = s' := by
                simpa using (List.mem_filter.mp ha).2
              have hb1 := List.mem_filter.mp hb
              have hb2 : b = row := by simpa using hb1.1
              subst hb2
              have hsid : sid = s' := by
                have hb3 := hb1.2
                rw [hrs] at hb3
                simpa using hb3
              have hkey : ¬(fd ≤ a.to_date ∧ a.from_date ≤ td) := fun hcon =>
                hno' a hmem ⟨by rw [hasid, ← hsid], hcon.1, hcon.2⟩
              rw [hrf, hrt]
              rcases not_and_or.mp hkey with hcase | hcase
              · left
                omega
              · right
                omega

/-- Witness for C10 at concrete inputs: an intersecting second cut and a
past-dated cut are rejected; an accepted cut preserves disjointness. -/
theorem mess_cut_disjointness_witness :
    submitMessCut
        { emptyDB with messCuts :=
            [{ student_id := 1, from_date := 101, to_date := 103,
               cutoff_ok := true }] }
        145051 1 103 105 ≠
      .ok ({ emptyDB with messCuts :=
              [{ student_id := 1, from_date := 101, to_date := 103,
                 cutoff_ok := true },
               { student_id := 1, from_date := 103, to_date := 105,
                 cutoff_ok := true }] },
           { student_id := 1, from_date := 103, to_date := 105,
             cutoff_ok := true }) ∧
    submitMessCut emptyDB 145051 1 90 95 ≠
      .ok (emptyDB,
           { student_id := 1, from_date := 90, to_date := 95,
             cutoff_ok := true }) ∧
    DisjointCuts (cutsOf
      ({ emptyDB with messCuts :=
          [{ student_id := 1, from_date := 101, to_date := 101,
             cutoff_ok := true }] }) 1) :=
  ⟨mess_cut_disjointness.1
      { emptyDB with messCuts :=
          [{ student_id := 1, from_date := 101, to_date := 103,
             cutoff_ok := true }] }
      145051 1 103 105 _
      ⟨{ student_id := 1, from_date := 101, to_date := 103, cutoff_ok := true },
        by simp, rfl, by decide, by decide⟩,
   mess_cut_disjointness.2.1 emptyDB 145051 1 90 95 _ (by decide),
   mess_cut_disjointness.2.2 emptyDB 145051 1 101 101
      ({ emptyDB with messCuts :=
          [{ student_id := 1, from_date := 101, to_date := 101,
             cutoff_ok := true }] })
      { student_id := 1, from_date := 101, to_date := 101, cutoff_ok := true }
      1 (by rfl) (by simp [cutsOf, DisjointCuts, emptyDB])⟩

/-! ### QR rotation invariants (C8) -/

lemma qr_version_le_applyOp (s : Student) (op : StudentOp) :
    s.qr_version ≤ (applyOp s op).qr_version := by
  cases op <;> simp [applyOp, regenerate_qr]

/-- C8: rotation bumps `qr_version` by exactly 1 and replaces `qr_nonce`
with the hex encoding of the 32 freshly drawn random bytes (64 hex chars,
i.e. 32 bytes of entropy); over every operation sequence `qr_version` is
monotonically non-decreasing; and (assuming each freshly drawn nonce
differs from the stored one, which 256 bits of randomness guarantee up to
negligible probability) a single operation changes `qr_nonce` iff it
changes `qr_version`. -/
theorem qr_rotation_invariants :
    (∀ (s : Student) (bs : List Nat),
      (regenerate_qr s bs).qr_version = s.qr_version + 1 ∧
      (regenerate_qr s bs).qr_nonce = hexOfBytes bs ∧
      (bs.length = 32 → (regenerate_qr s bs).qr_nonce.length = 64)) ∧
    (∀ (s : Student) (ops : List StudentOp),
      s.qr_version ≤ (runOps s ops).qr_version) ∧
    (∀ (s : Student) (op : StudentOp), freshAlong s [op] = true →
      ((applyOp s op).qr_version ≠ s.qr_version ↔
        (applyOp s op).qr_nonce ≠ s.qr_nonce)) := by
  refine ⟨?_, ?_, ?_⟩
  · intro s bs
    refine ⟨rfl, rfl, ?_⟩
    intro h32
    simp [regenerate_qr, length_hexOfBytes, h32]
  · intro s ops
    induction ops generalizing s with
    | nil => simp [runOps]
    | cons op ops ih =>
      calc s.qr_version ≤ (applyOp s op).qr_version := qr_version_le_applyOp s op
        _ ≤ (runOps (applyOp s op) ops).qr_version := ih (applyOp s op)
        _ = (runOps s (op :: ops)).qr_version := rfl
  · intro s op hfresh
    cases op with
    | approve => simp [applyOp]
    | deny => simp [applyOp]
    | rotate bs =>
      simp only [freshAlong, Bool.and_eq_true, decide_eq_true_eq] at hfresh
      simp [applyOp, regenerate_qr, hfresh.1]

/-- Witness for C8 at concrete inputs: one rotation of the sample student
with 32 fresh zero bytes. -/
theorem qr_rotation_invariants_witness :
    (regenerate_qr sampleStudent (List.replicate 32 0)).qr_version = 2 ∧
    ((List.replicate 32 0).length = 32 →
      (regenerate_qr sampleStudent (List.replicate 32 0)).qr_nonce.length = 64) ∧
    sampleStudent.qr_version ≤
      (runOps sampleStudent [StudentOp.rotate [1]]).qr_version ∧
    ((applyOp sampleStudent (StudentOp.rotate [1])).qr_version ≠
        sampleStudent.qr_version ↔
      (applyOp sampleStudent (StudentOp.rotate [1])).qr_nonce ≠
        sampleStudent.qr_nonce) :=
  ⟨(qr_rotation_invariants.1 sampleStudent (List.replicate 32 0)).1,
   (qr_rotation_invariants.1 sampleStudent (List.replicate 32 0)).2.2,
   qr_rotation_invariants.2.1 sampleStudent [StudentOp.rotate [1]],
   qr_rotation_invariants.2.2 sampleStudent (StudentOp.rotate [1]) (by decide)⟩

/-! ### Timezone of "today" and of the cutoff comparison (C6) -/

/-- Store for the timezone scenario: approved student 1 whose VERIFIED
payment covers exactly day 200. -/
def dbPaymentDay200 : DB :=
  { students := [sampleStudent],
    payments := [{ student_id := 1, cycle_start := 200, cycle_end := 200,
                   status := PaymentStatus.verified }],
    messCuts := [], closures := [], scanEvents := [] }

/-- C6 is false of the code (code bug): the decision cascade's "today" and
the cutoff time-of-day comparison evaluate the *UTC* wall clock
(`timezone.now()` with `USE_TZ = True`), not the facility timezone; only
meal auto-detection converts.  At instant `289140` (day 200, 19:00 UTC =
day 201, 00:30 IST) the facility-local date differs from the UTC date, and
a student whose payment expired on day 200 still scans ALLOWED — the UTC
value, not the facility-local one, determines the outcome.  And at instant
`433051` (day 300, 17:31 UTC = 23:01 IST) a cut for UTC-tomorrow is still
accepted even though facility-local time is past the 23:00 cutoff. -/
theorem scan_today_and_cutoff_use_utc :
    utcDate 289140 = 200 ∧ istDate 289140 = 201 ∧
    scanPipeline nullDigest "k".data dbPaymentDay200 289140
        { qr_data := sampleToken, meal := some MealType.dinner,
          device_info := "d" } =
      .ok ({ dbPaymentDay200 with scanEvents :=
              [{ student_id := 1, meal := MealType.dinner,
                 result := ScanResult.allowed, device_info := "d" }] },
           ScanResult.allowed) ∧
    determine_scan_result dbPaymentDay200 sampleStudent (istDate 289140) =
      ScanResult.blockedNoPayment ∧
    istTimeOfDay 433051 = 23 * 60 + 1 ∧ cutoffMin < istTimeOfDay 433051 ∧
    submitMessCut emptyDB 433051 1 301 301 =
      .ok ({ emptyDB with messCuts :=
              [{ student_id := 1, from_date := 301, to_date := 301,
                 cutoff_ok := true }] },
           { student_id := 1, from_date := 301, to_date := 301,
             cutoff_ok := true }) :=
  ⟨by decide, by decide, by rfl, by decide, by decide, by decide, by rfl⟩

/-! ### Meal auto-detection (C9) -/

/-- C9 is false of the code (code bug): meal auto-detection is dead code
on the scan path.  `get_current_meal`/`validate_meal` as written do
implement the claimed behavior (first inclusive window containing the
facility-local time, graceful `"No meal service active..."` rejection when
none does) — but a scan request that omits the optional `meal` field never
reaches `validate_meal` (DRF raises `SkipField` for an absent non-required
field), so `create` dies with `KeyError: 'meal'` (HTTP 500) instead of the
claimed invalid-request rejection.  (Reaching `get_current_meal` would
moreover raise `AttributeError`: it reads `settings.TIMEZONE`, which is
never defined — settings.py defines `TIME_ZONE`.)  At instant `289140`
(00:30 IST) no window is active, and the scan below passes token and
entity checks yet produces the `KeyError` server error, not `noMealMsg`,
and writes no `ScanEvent`. -/
theorem meal_autodetect_dead_code :
    get_current_meal mealTimings 289140 = none ∧
    validate_meal mealTimings 289140 none = .error noMealMsg ∧
    get_current_meal mealTimings 450 = some MealType.lunch ∧
    scanPipeline nullDigest "k".data sampleDB 289140
        { qr_data := sampleToken, meal := none, device_info := "d" } =
      .error (.server keyErrorMealMsg) ∧
    ScanErr.server keyErrorMealMsg ≠ ScanErr.validation noMealMsg :=
  ⟨by decide, by rfl, by decide, by rfl, by decide⟩

end MessSpec


